import Mathlib

/-!
Shallow embedding of the `yaratakip_analiz` wound-analysis service and proofs
about its scoring, classification and error-handling behaviour.

Conventions of the embedding:
* Python `float` values are modelled as `ℚ`.  All comparisons in the source are
  against integer constants, so the rational model is exact for them.
* Python `str` values that the code inspects character by character are
  modelled as `List Char`; fixed labels and recommendation texts are `String`.
* Every call of `np.random.normal` / `random.random` / `random.normalvariate`
  is modelled by an explicit parameter carrying the realized draw (a Gaussian
  draw can be any rational; `random.random()` lies in `[0,1)`).
* External library calls (PIL image parsing, cv2 colour/edge/contour
  routines) are modelled as oracle arguments producing the signal values the
  source reads back from them; `none` models an exception in the library call.
* Python `round(x, n)` is modelled by `roundTo`; Python rounds ties to even
  while `round` here rounds half up, but no statement below touches a tie.
-/

/-- Clip `q` into the interval `[lo, hi]`, written exactly as the sources
write it: `max lo (min q hi)` mirrors Python `max(lo, min(q, hi))`. -/
def clip (lo hi q : ℚ) : ℚ := max lo (min q hi)

/-- Model of Python `round(q, d)` where `k = 10 ^ d`: round `q * k` to the
nearest integer and divide back. -/
def roundTo (k : ℕ) (q : ℚ) : ℚ := ((round (q * k) : ℤ) : ℚ) / k

/-- Model of Python `round(q, 1)`. -/
def round1 (q : ℚ) : ℚ := roundTo 10 q

/-- Model of Python `round(q, 2)`. -/
def round2 (q : ℚ) : ℚ := roundTo 100 q

/-- Model of Python `s.split(',')`: split a character list at every comma,
keeping empty segments, never dropping a trailing empty segment. -/
def splitComma : List Char → List (List Char)
  | [] => [[]]
  | c :: cs =>
    if c = ',' then [] :: splitComma cs
    else
      match splitComma cs with
      | [] => [[c]]
      | t :: ts => (c :: t) :: ts

/-- Index of a character in the standard base64 alphabet, `none` for
characters outside it (padding `=` is handled separately). -/
def b64CharIndex (c : Char) : Option ℕ :=
  if 'A' ≤ c ∧ c ≤ 'Z' then some (c.toNat - 65)
  else if 'a' ≤ c ∧ c ≤ 'z' then some (c.toNat - 97 + 26)
  else if '0' ≤ c ∧ c ≤ '9' then some (c.toNat - 48 + 52)
  else if c = '+' then some 62
  else if c = '/' then some 63
  else none

/-- Whether a character belongs to the base64 data alphabet. -/
def isB64Char (c : Char) : Bool := (b64CharIndex c).isSome

/-- Reassemble 6-bit groups into bytes, as base64 decoding does: four
sextets give three bytes, a final pair or triple gives one or two bytes. -/
def decodeSextets : List ℕ → List ℕ
  | a :: b :: c :: d :: rest =>
    (a * 4 + b / 16) :: (b % 16 * 16 + c / 4) :: (c % 4 * 64 + d) :: decodeSextets rest
  | [a, b] => [a * 4 + b / 16]
  | [a, b, c] => [a * 4 + b / 16, b % 16 * 16 + c / 4]
  | _ => []

/-- Model of Python `base64.b64decode` (default non-validating mode): discard
characters outside the alphabet and padding, require the kept length to be a
multiple of four (otherwise `binascii.Error`, modelled as `none`), then decode
the data characters before the first padding sign. -/
def pyB64Decode (s : List Char) : Option (List ℕ) :=
  let kept := s.filter (fun c => isB64Char c || c == '=')
  if kept.length % 4 ≠ 0 then none
  else
    let data := kept.takeWhile (fun c => c ≠ '=')
    if data.length % 4 = 1 then none
    else some (decodeSextets (data.filterMap b64CharIndex))

/-- The decode sequence shared verbatim by `lightweight_model.py` (97-106),
`api_server.py` (85-90) and `wound_analysis_model.py` (248-266):
`base64.b64decode(image_data.split(',')[1])` followed by `Image.open` and
the library-side feature extraction (the oracle `parse`).  `none` models the
exception each stage can raise: `IndexError` when the input has no comma,
`binascii.Error` on bad base64, and any PIL/cv2 failure. -/
def decodePipeline {α : Type} (parse : List ℕ → Option α) (image_data : List Char) :
    Option α :=
  match (splitComma image_data).get? 1 with
  | none => none
  | some payload =>
    match pyB64Decode payload with
    | none => none
    | some image_bytes => parse image_bytes

/-- Output record shared by `pure_python_api.py` and `api_server.py`
(`AnalysisResponse` with the fields the analysis dictionaries carry). -/
structure AnalysisResult where
  inflammation_score : ℚ
  swelling_score : ℚ
  closure_score : ℚ
  overall_status : String
  recommendations : List String
  confidence : ℚ
  processed_regions : String
deriving DecidableEq

/-- Metadata record produced by `analyze_base64_metadata` in
`pure_python_api.py`. -/
structure Metadata where
  header : List Char
  size_estimate : ℕ
  entropy : ℕ
  data_length : ℕ
deriving DecidableEq

/-- Payload extraction of `analyze_base64_metadata`
(`pure_python_api.py` line 50): `image_data.split(',')[1]` when a comma is
present, else the whole string. -/
def pureDataPart (image_data : List Char) : List Char :=
  if ',' ∈ image_data then (splitComma image_data).getD 1 [] else image_data

/-- Embedding of `analyze_base64_metadata` (`pure_python_api.py` 45-77).
The body is total string processing, so the `except` branch returning default
metadata is unreachable and does not appear here. -/
def analyze_base64_metadata (image_data : List Char) : Metadata :=
  let header :=
    if ',' ∈ image_data then (splitComma image_data).getD 0 []
    else image_data.take 100
  let data_part := pureDataPart image_data
  let data_length := data_part.length
  let size_estimate := data_length * 3 / 4
  let entropy := (data_part.take 1000).dedup.length
  ⟨header, size_estimate, entropy, data_length⟩

/-- Triple of raw (unrounded) scores. -/
structure Scores where
  inflammation_score : ℚ
  swelling_score : ℚ
  closure_score : ℚ
deriving DecidableEq

/-- Embedding of `smart_medical_analysis` (`pure_python_api.py` 79-119);
`r1 r2 r3` are the three `random.random()` draws. -/
def smart_medical_analysis (r1 r2 r3 : ℚ) (m : Metadata) : Scores :=
  let size : ℚ := m.size_estimate
  let entropy : ℚ := m.entropy
  let size_factor : ℚ :=
    if size > 200000 then 13/10 else if size > 100000 then 11/10 else 9/10
  let complexity_factor : ℚ :=
    if entropy > 50 then 12/10 else if entropy > 35 then 1 else 8/10
  let base_inflammation := 25 + r1 * 40
  let base_swelling := 20 + r2 * 30
  let base_closure := 60 + r3 * 35
  let inflammation_score := base_inflammation * size_factor * complexity_factor
  let swelling_score := base_swelling * size_factor * complexity_factor
  let closure_score := base_closure / (size_factor * complexity_factor)
  ⟨clip 10 95 inflammation_score, clip 10 85 swelling_score, clip 30 98 closure_score⟩

/-- Status evaluation inlined in `pure_python_analysis`
(`pure_python_api.py` 135-160). -/
def pure_status (i s c : ℚ) : String × List String :=
  if i > 70 ∨ s > 60 then
    ("critical",
      ["Acil tıbbi müdahale gerekebilir",
       "Hekiminizle derhal iletişime geçin",
       "Enfeksiyon belirtileri gözleniyor",
       "Antibiyotik tedavisi gerekebilir"])
  else if i > 50 ∨ s > 40 ∨ c < 50 then
    ("warning",
      ["Yakın tıbbi takip gerekli",
       "İlaç kullanımınızı kontrol edin",
       "Hijyen kurallarına sıkı şekilde uyun",
       "48 saat içinde kontrole gelin",
       "Herhangi bir kötüleşmede hemen başvurun"])
  else
    ("good",
      ["İyileşme süreci olumlu görünüyor",
       "Düzenli takiplerinizi aksatmayın",
       "Önerilen bakım yöntemlerini sürdürün",
       "Yarayı temiz ve kuru tutun",
       "Pansumanları düzenli değiştirin"])

/-- Fallback dictionary of `pure_python_analysis` (`pure_python_api.py`
177-190). -/
def purePythonFallback : AnalysisResult :=
  ⟨35, 25, 75, "good",
   ["Analiz tamamlandı",
    "Düzenli tıbbi takip önerilir",
    "Herhangi bir endişeniz varsa hekiminize danışın",
    "Yaranızı temiz tutmaya devam edin"],
   13/20, "fallback_analysis"⟩

/-- Embedding of `pure_python_analysis` (`pure_python_api.py` 121-190),
additionally returning the metadata (feature set) the run computed.  The body
inside the `try` is total, so the fallback branch is unreachable; it exists in
the source as `purePythonFallback`. -/
def pure_python_analysis_traced (r1 r2 r3 : ℚ) (image_data : List Char) :
    Metadata × AnalysisResult :=
  let m := analyze_base64_metadata image_data
  let sc := smart_medical_analysis r1 r2 r3 m
  let st := pure_status sc.inflammation_score sc.swelling_score sc.closure_score
  let confidence : ℚ := 7/10 + min (m.entropy : ℚ) 50 / 100
  (m,
   ⟨round1 sc.inflammation_score, round1 sc.swelling_score,
    round1 sc.closure_score, st.1, st.2, round2 confidence, "metadata_analysis"⟩)

/-- The result component of `pure_python_analysis`. -/
def pure_python_analysis (r1 r2 r3 : ℚ) (image_data : List Char) : AnalysisResult :=
  (pure_python_analysis_traced r1 r2 r3 image_data).2

/-- Outcome of an HTTP endpoint call: a 200 response body, or an
`HTTPException` with the given status code that reaches the client. -/
inductive EndpointOutcome where
  | success : AnalysisResult → EndpointOutcome
  | httpError : ℕ → EndpointOutcome
deriving DecidableEq

/-- Fallback dictionary of the `pure_python_api.py` endpoint handler
(lines 235-246). -/
def errorFallback : AnalysisResult :=
  ⟨30, 20, 80, "good",
   ["Analiz tamamlandı", "Düzenli kontrol önerilir"],
   3/5, "error_fallback"⟩

/-- Embedding of the `POST /api/analyze-wound` handler of
`pure_python_api.py` (221-247).  The handler raises `HTTPException(400)` for
an empty image inside its own `try`, and `HTTPException` is a subclass of
`Exception`, so the blanket `except` swallows the 400 and returns the
`error_fallback` body with success semantics; no other statement in the `try`
can raise, so that is the only path into the `except`. -/
def pure_api_analyze_wound (r1 r2 r3 : ℚ) (image : List Char) : EndpointOutcome :=
  if image = [] then .success errorFallback
  else .success (pure_python_analysis r1 r2 r3 image)

/-- Result dataclass of `lightweight_model.py` (`WoundAnalysisResult`,
lines 15-22; it carries no `processed_regions` field). -/
structure LWResult where
  inflammation_score : ℚ
  swelling_score : ℚ
  closure_score : ℚ
  overall_status : String
  recommendations : List String
  confidence : ℚ
deriving DecidableEq

/-- Signals that the cv2/PIL stack produces for the lightweight analyzer:
red-pixel percentage (`detect_redness` 42-58), Canny edge density
(`detect_swelling` 67-71) and grayscale variance (`detect_closure` 80-83).
These are read back from external library calls and are therefore oracle
inputs of the embedding. -/
structure LWFeatures where
  red_percentage : ℚ
  edge_density : ℚ
  variance : ℚ
deriving DecidableEq

/-- Scoring tail of `LightweightWoundAnalyzer.detect_redness`
(`lightweight_model.py` 60-62); `n1` is the `np.random.normal(0, 8)` draw. -/
def detect_redness_lw (n1 red_percentage : ℚ) : ℚ :=
  let base_score := min (red_percentage * 4) 100
  max 10 (min (base_score + n1) 95)

/-- Scoring tail of `LightweightWoundAnalyzer.detect_swelling`
(`lightweight_model.py` 73-75); `n2` is the `np.random.normal(0, 10)` draw. -/
def detect_swelling_lw (n2 edge_density : ℚ) : ℚ :=
  let swelling_score := min (edge_density * 3) 80
  max 15 (min (swelling_score + n2) 85)

/-- Scoring tail of `LightweightWoundAnalyzer.detect_closure`
(`lightweight_model.py` 85-93); `c1 c2 c3` are the realized draws of the
three per-branch `np.random.normal` calls. -/
def detect_closure_lw (c1 c2 c3 variance : ℚ) : ℚ :=
  let closure_score := if variance > 2000 then c1 else if variance > 1000 then c2 else c3
  max 20 (min closure_score 98)

/-- Embedding of `LightweightWoundAnalyzer._evaluate_status`
(`lightweight_model.py` 141-166). -/
def evaluate_status_lw (inflammation swelling closure : ℚ) : String × List String :=
  if inflammation > 70 ∨ swelling > 60 then
    ("critical",
      ["Acil tıbbi müdahale gerekebilir",
       "Hekiminizle iletişime geçin",
       "Enfeksiyon riski yüksek"])
  else if inflammation > 50 ∨ swelling > 40 ∨ closure < 50 then
    ("warning",
      ["Yakın takip gerekli",
       "İlaç kullanımınızı kontrol edin",
       "Hijyen kurallarına dikkat edin"])
  else
    ("good",
      ["İyileşme süreci normal görünüyor",
       "Düzenli takip devam edin",
       "Önerilen bakım yöntemlerini uygulayın"])

/-- Fallback result of `LightweightWoundAnalyzer.analyze_wound`
(`lightweight_model.py` 130-139). -/
def lightweightFallback : LWResult :=
  ⟨25, 20, 75, "good",
   ["İyileşme süreci normal görünüyor", "Düzenli takip devam edin"],
   3/5⟩

/-- Success path of `LightweightWoundAnalyzer.analyze_wound`
(`lightweight_model.py` 108-128) from the extracted signals. -/
def lightweight_success (n1 n2 c1 c2 c3 : ℚ) (f : LWFeatures) : LWResult :=
  let inflammation_score := detect_redness_lw n1 f.red_percentage
  let swelling_score := detect_swelling_lw n2 f.edge_density
  let closure_score := detect_closure_lw c1 c2 c3 f.variance
  let st := evaluate_status_lw inflammation_score swelling_score closure_score
  let confidence := min (7/10 + closure_score / 200) (95/100)
  ⟨round1 inflammation_score, round1 swelling_score, round1 closure_score,
   st.1, st.2, round2 confidence⟩

/-- Embedding of `LightweightWoundAnalyzer.analyze_wound`
(`lightweight_model.py` 95-139).  `image_data.split(',')[1]` raises
`IndexError` when the input has no comma; `base64.b64decode` raises on bad
padding; `Image.open` plus the cv2 feature extraction is the oracle
`imgFeat`.  Every exception in the `try` lands in the `except` returning the
fixed fallback. -/
def lightweight_analyze_wound (imgFeat : List ℕ → Option LWFeatures)
    (n1 n2 c1 c2 c3 : ℚ) (image_data : List Char) : LWResult :=
  match decodePipeline imgFeat image_data with
  | none => lightweightFallback
  | some f => lightweight_success n1 n2 c1 c2 c3 f

/-- Embedding of `analyze_wound_api` (`lightweight_model.py` 169-182): run
the analyzer and add the fixed path label. -/
def analyze_wound_api_lw (imgFeat : List ℕ → Option LWFeatures)
    (n1 n2 c1 c2 c3 : ℚ) (image_data : List Char) : AnalysisResult :=
  let r := lightweight_analyze_wound imgFeat n1 n2 c1 c2 c3 image_data
  ⟨r.inflammation_score, r.swelling_score, r.closure_score, r.overall_status,
   r.recommendations, r.confidence, "lightweight_analysis"⟩

/-- Embedding of the `POST /api/analyze-wound` handler of
`lightweight_api.py` (64-80).  The `HTTPException(400)` raised for an empty
image inside the `try` is caught by `except Exception` and re-raised as
`HTTPException(500, "Analysis failed: ...")`; the analysis call itself is
total, so the 500 is the only error path. -/
def lightweight_api_analyze_wound (imgFeat : List ℕ → Option LWFeatures)
    (n1 n2 c1 c2 c3 : ℚ) (image : List Char) : EndpointOutcome :=
  if image = [] then .httpError 500
  else .success (analyze_wound_api_lw imgFeat n1 n2 c1 c2 c3 image)

/-- Colour statistics produced by `analyze_colors_pil`
(`api_server.py` 46-80). -/
structure ColorStats where
  red_percentage : ℚ
  avg_brightness : ℚ
  red_intensity : ℚ
deriving DecidableEq

/-- The pixel loop of `analyze_colors_pil` (`api_server.py` 59-71): count of
red pixels, sum of their red channels, and the running brightness sum. -/
def colorFold : List (ℕ × ℕ × ℕ) → ℕ × ℕ × ℚ
  | [] => (0, 0, 0)
  | (r, g, b) :: rest =>
    let t := colorFold rest
    if r > g + 20 ∧ r > b + 20 ∧ r > 100 then
      (t.1 + 1, t.2.1 + r, t.2.2 + ((r : ℚ) + g + b) / 3)
    else
      (t.1, t.2.1, t.2.2 + ((r : ℚ) + g + b) / 3)

/-- Embedding of `analyze_colors_pil` (`api_server.py` 46-80) from the pixel
list the external PIL resize/convert produced (always 64×64 = 4096 pixels in
the source, so the divisions are never by zero there). -/
def analyze_colors_pil (pixels : List (ℕ × ℕ × ℕ)) : ColorStats :=
  let t := colorFold pixels
  let total_pixels : ℚ := pixels.length
  ⟨(t.1 : ℚ) / total_pixels * 100,
   t.2.2 / total_pixels,
   (t.2.1 : ℚ) / (max t.1 1 : ℕ)⟩

/-- Score synthesis of `simple_wound_analysis_no_cv`
(`api_server.py` 92-115); `n1 n2 n3` are the three `random.normalvariate`
draws. -/
def noCv_scores (n1 n2 n3 : ℚ) (cs : ColorStats) : Scores :=
  let red_percentage := cs.red_percentage
  let brightness := cs.avg_brightness
  let inflammation_base := min (red_percentage * 3) 60
  let inflammation_score := min (max 15 (inflammation_base + n1)) 95
  let swelling_base : ℚ :=
    if brightness > 150 then 20 else if brightness < 80 then 50 else 30
  let swelling_score := min (max 10 (swelling_base + n2)) 85
  let closure_base := 90 - red_percentage * 2
  let closure_score := min (max 30 (closure_base + n3)) 98
  ⟨inflammation_score, swelling_score, closure_score⟩

/-- Status evaluation inlined in `simple_wound_analysis_no_cv`
(`api_server.py` 117-139). -/
def noCv_status (i s c : ℚ) : String × List String :=
  if i > 70 ∨ s > 60 then
    ("critical",
      ["Acil tıbbi müdahale gerekebilir",
       "Hekiminizle derhal iletişime geçin",
       "Enfeksiyon riski yüksek"])
  else if i > 50 ∨ s > 40 ∨ c < 50 then
    ("warning",
      ["Yakın takip gerekli",
       "İlaç kullanımınızı kontrol edin",
       "Hijyen kurallarına dikkat edin",
       "Hekiminizle iletişime geçin"])
  else
    ("good",
      ["İyileşme süreci normal görünüyor",
       "Düzenli takip devam edin",
       "Önerilen bakım yöntemlerini uygulayın"])

/-- Fallback dictionary of `simple_wound_analysis_no_cv`
(`api_server.py` 151-165). -/
def noCvFallback : AnalysisResult :=
  ⟨30, 25, 75, "good",
   ["Analiz tamamlandı",
    "Düzenli takip önerilir",
    "Herhangi bir endişeniz varsa hekiminize danışın"],
   3/5, "fallback_analysis"⟩

/-- Embedding of `simple_wound_analysis_no_cv` (`api_server.py` 82-165),
additionally returning the colour statistics (feature set) when they were
computed.  `imgPixels` is the oracle for `Image.open` plus the PIL
resize/convert/getdata pipeline; every exception lands in the fallback. -/
def simple_wound_analysis_no_cv_traced
    (imgPixels : List ℕ → Option (List (ℕ × ℕ × ℕ)))
    (n1 n2 n3 : ℚ) (image_data : List Char) : Option ColorStats × AnalysisResult :=
  match decodePipeline imgPixels image_data with
  | none => (none, noCvFallback)
  | some pixels =>
    let cs := analyze_colors_pil pixels
    let sc := noCv_scores n1 n2 n3 cs
    let st := noCv_status sc.inflammation_score sc.swelling_score sc.closure_score
    (some cs,
     ⟨round1 sc.inflammation_score, round1 sc.swelling_score,
      round1 sc.closure_score, st.1, st.2, 3/4, "pil_color_analysis"⟩)

/-- The result component of `simple_wound_analysis_no_cv`. -/
def simple_wound_analysis_no_cv (imgPixels : List ℕ → Option (List (ℕ × ℕ × ℕ)))
    (n1 n2 n3 : ℚ) (image_data : List Char) : AnalysisResult :=
  (simple_wound_analysis_no_cv_traced imgPixels n1 n2 n3 image_data).2

/-- Embedding of the `POST /api/analyze-wound` handler of `api_server.py`
(204-220): same structure as `lightweight_api.py`, the empty-image 400 is
swallowed by `except Exception` and re-raised as a 500. -/
def noCv_api_analyze_wound (imgPixels : List ℕ → Option (List (ℕ × ℕ × ℕ)))
    (n1 n2 n3 : ℚ) (image : List Char) : EndpointOutcome :=
  if image = [] then .httpError 500
  else .success (simple_wound_analysis_no_cv imgPixels n1 n2 n3 image)

/-- Result dataclass of `wound_analysis_model.py` (lines 22-31); the
`processed_regions` dictionary carries only observability data and is not
modelled. -/
structure ModelResult where
  inflammation_score : ℚ
  swelling_score : ℚ
  closure_score : ℚ
  overall_status : String
  recommendations : List String
  confidence : ℚ
deriving DecidableEq

/-- Combined redness metric of `InflammationDetector.detect_redness`
(`wound_analysis_model.py` 144-149): area fraction of red pixels inside the
wound mask and the red/green intensity fraction, both produced by cv2. -/
def detect_redness_score (area_frac intensity_frac : ℚ) : ℚ :=
  area_frac * 50 + min intensity_frac 2 * 25

/-- Final clipped redness score of `InflammationDetector.detect_redness`
(`wound_analysis_model.py` 151-154): add the `np.random.normal(0, 5)` draw
`n`, then clip to `[0, 100]`. -/
def detect_redness_model (n area_frac intensity_frac : ℚ) : ℚ :=
  min (max (detect_redness_score area_frac intensity_frac + n) 0) 100

/-- Embedding of `WoundAnalysisModel._calculate_confidence`
(`wound_analysis_model.py` 331-341); the mask is the pixel list of the wound
mask, `wound_area` counts its nonzero entries. -/
def calculate_confidence_model (wound_mask : List ℕ) : ℚ :=
  let wound_area : ℚ := (wound_mask.filter (fun x => decide (0 < x))).length
  let total_area : ℚ := wound_mask.length
  if wound_area < total_area * (1/100) then 3/10
  else if wound_area < total_area * (5/100) then 3/5
  else 9/10

/-- Embedding of `WoundAnalysisModel._evaluate_overall_status`
(`wound_analysis_model.py` 301-329); identical thresholds and texts to the
lightweight classifier. -/
def model_evaluate_status (inflammation swelling closure : ℚ) : String × List String :=
  if inflammation > 70 ∨ swelling > 60 then
    ("critical",
      ["Acil tıbbi müdahale gerekebilir",
       "Hekiminizle iletişime geçin",
       "Enfeksiyon riski yüksek"])
  else if inflammation > 50 ∨ swelling > 40 ∨ closure < 50 then
    ("warning",
      ["Yakın takip gerekli",
       "İlaç kullanımınızı kontrol edin",
       "Hijyen kurallarına dikkat edin"])
  else
    ("good",
      ["İyileşme süreci normal görünüyor",
       "Düzenli takip devam edin",
       "Önerilen bakım yöntemlerini uygulayın"])

/-- Fallback result of `WoundAnalysisModel.analyze_wound`
(`wound_analysis_model.py` 289-299): all scores 0.0, status `"error"`,
confidence 0.0. -/
def modelFallback : ModelResult :=
  ⟨0, 0, 0, "error", ["Görüntü analizi yapılamadı"], 0⟩

/-- Signals the cv2 stack produces for `WoundAnalysisModel.analyze_wound`:
the redness fractions feeding `detect_redness`, the outputs of the
geometry-based swelling and closure detectors (cv2 convex-hull and Hough
analyses, external), and the wound mask. -/
structure ModelFeatures where
  area_frac : ℚ
  intensity_frac : ℚ
  swelling_score : ℚ
  closure_score : ℚ
  wound_mask : List ℕ

/-- Embedding of `WoundAnalysisModel.analyze_wound`
(`wound_analysis_model.py` 245-299).  Payload extraction is the unchecked
`image_data.split(',')[1]`; decode failures and failures of the
PIL/cv2 pipeline (oracle `imgFeat`) all land in the `except` returning the
fixed fallback; `n` is the redness noise draw.  The returned scores are not
rounded in this variant. -/
def model_analyze_wound (imgFeat : List ℕ → Option ModelFeatures)
    (n : ℚ) (image_data : List Char) : ModelResult :=
  match decodePipeline imgFeat image_data with
  | none => modelFallback
  | some f =>
    let inflammation_score := detect_redness_model n f.area_frac f.intensity_frac
    let st := model_evaluate_status inflammation_score f.swelling_score f.closure_score
    ⟨inflammation_score, f.swelling_score, f.closure_score, st.1, st.2,
     calculate_confidence_model f.wound_mask⟩

/-- Closure synthesis as the spec's §4.3 four-step pipeline words describe
it (transform, clip to the documented range, add noise, clip again), stated
for the no-CV closure score so it can be compared with `noCv_scores`.  This
definition follows the SPEC's words, not the source. -/
def specFourStepClosureNoCv (red_percentage n : ℚ) : ℚ :=
  clip 30 98 (clip 30 98 (90 - red_percentage * 2) + n)

/-- Concrete malformed data-URI from the spec's test property. -/
def malformedInput : List Char := ("data:image/png;base64,%%%notbase64%%%").toList

/-- Concrete comma-free payload whose 64 distinct characters are the full
base64 alphabet. -/
def alphabetInput : List Char :=
  ("ABCDEFGHIJKLMNOPQRSTUVWXYZabcdefghijklmnopqrstuvwxyz0123456789+/").toList

/-- Concrete bare base64 payload (no comma) decoding to the bytes of
`"ABC"`. -/
def barePayload : List Char := ("QUJD").toList

/-- The clip combinator lands in its interval whenever the interval is
nonempty. -/
theorem clip_mem (lo hi q : ℚ) (h : lo ≤ hi) : lo ≤ clip lo hi q ∧ clip lo hi q ≤ hi :=
  ⟨le_max_left _ _, max_le h (min_le_right _ _)⟩

/-- Rounding to the nearest integer is monotone on `ℚ`. -/
theorem roundQ_mono {x y : ℚ} (h : x ≤ y) : round x ≤ round y := by
  rw [round_eq, round_eq]
  exact Int.floor_le_floor (by linarith)

/-- Bounds for `roundTo` from bounds on the scaled value. -/
theorem roundTo_bounds (k : ℕ) (lo hi : ℤ) (q : ℚ) (hk : 0 < (k : ℚ))
    (h1 : (lo : ℚ) ≤ q * k) (h2 : q * k ≤ (hi : ℚ)) :
    (lo : ℚ) / k ≤ roundTo k q ∧ roundTo k q ≤ (hi : ℚ) / k := by
  have l1 : lo ≤ round (q * (k : ℚ)) := by
    have h := roundQ_mono h1
    rwa [round_intCast] at h
  have l2 : round (q * (k : ℚ)) ≤ hi := by
    have h := roundQ_mono h2
    rwa [round_intCast] at h
  unfold roundTo
  constructor
  · exact (div_le_div_iff_of_pos_right hk).mpr (by exact_mod_cast l1)
  · exact (div_le_div_iff_of_pos_right hk).mpr (by exact_mod_cast l2)

/-- Rounding at a decimal place keeps a value between integer bounds. -/
theorem roundTo_int_bounds (k : ℕ) (lo hi : ℤ) (q : ℚ) (hk : 0 < (k : ℚ))
    (h1 : (lo : ℚ) ≤ q) (h2 : q ≤ (hi : ℚ)) :
    (lo : ℚ) ≤ roundTo k q ∧ roundTo k q ≤ (hi : ℚ) := by
  have h1k : ((lo * k : ℤ) : ℚ) ≤ q * k := by push_cast; nlinarith
  have h2k : q * k ≤ ((hi * k : ℤ) : ℚ) := by push_cast; nlinarith
  have b := roundTo_bounds k (lo * k) (hi * k) q hk h1k h2k
  have e1 : ((lo * k : ℤ) : ℚ) / (k : ℚ) = (lo : ℚ) := by
    push_cast
    exact mul_div_cancel_right₀ _ (ne_of_gt hk)
  have e2 : ((hi * k : ℤ) : ℚ) / (k : ℚ) = (hi : ℚ) := by
    push_cast
    exact mul_div_cancel_right₀ _ (ne_of_gt hk)
  rw [e1, e2] at b
  exact b

/-- Rounding a clipped value to one decimal keeps the integer clip bounds. -/
theorem round1_clip_mem (lo hi : ℤ) (q : ℚ) (h : (lo : ℚ) ≤ (hi : ℚ)) :
    (lo : ℚ) ≤ round1 (clip lo hi q) ∧ round1 (clip lo hi q) ≤ (hi : ℚ) := by
  have hm := clip_mem lo hi q h
  exact roundTo_int_bounds 10 lo hi _ (by norm_num) hm.1 hm.2

/-- Bounds on one-decimal rounding between integer endpoints. -/
theorem round1_mem (zl zh : ℤ) (lo hi q : ℚ) (el : lo = (zl : ℚ)) (eh : hi = (zh : ℚ))
    (h1 : lo ≤ q) (h2 : q ≤ hi) : lo ≤ round1 q ∧ round1 q ≤ hi := by
  subst el
  subst eh
  unfold round1
  exact roundTo_int_bounds 10 zl zh q (by norm_num) h1 h2

/-- Bounds on two-decimal rounding from hundredth-scaled integer bounds. -/
theorem round2_frac_mem (zl zh : ℤ) (q : ℚ)
    (h1 : (zl : ℚ) ≤ q * 100) (h2 : q * 100 ≤ (zh : ℚ)) :
    (zl : ℚ) / 100 ≤ round2 q ∧ round2 q ≤ (zh : ℚ) / 100 := by
  unfold round2
  have b := roundTo_bounds 100 zl zh q (by norm_num) (by exact_mod_cast h1) (by exact_mod_cast h2)
  have e : ((100 : ℕ) : ℚ) = 100 := by norm_num
  rw [e] at b
  exact b

/-- The decode pipeline fails when the input has no second comma segment. -/
theorem decodePipeline_eq_none_of_split {α : Type} (parse : List ℕ → Option α)
    (d : List Char) (h : (splitComma d).get? 1 = none) : decodePipeline parse d = none := by
  unfold decodePipeline
  simp only [h]

/-- The decode pipeline fails when the extracted payload is invalid base64. -/
theorem decodePipeline_eq_none_of_decode {α : Type} (parse : List ℕ → Option α)
    (d p : List Char) (h1 : (splitComma d).get? 1 = some p)
    (h2 : pyB64Decode p = none) : decodePipeline parse d = none := by
  unfold decodePipeline
  simp only [h1, h2]

/-- With the payload extracted and decoded, the pipeline is the library
parse of the decoded bytes. -/
theorem decodePipeline_eq_parse {α : Type} (parse : List ℕ → Option α)
    (d p : List Char) (bs : List ℕ) (h1 : (splitComma d).get? 1 = some p)
    (h2 : pyB64Decode p = some bs) : decodePipeline parse d = parse bs := by
  unfold decodePipeline
  simp only [h1, h2]

/-- The lightweight redness score is clipped into `[10, 95]`. -/
theorem detect_redness_lw_mem (n1 r : ℚ) :
    10 ≤ detect_redness_lw n1 r ∧ detect_redness_lw n1 r ≤ 95 := by
  unfold detect_redness_lw
  exact ⟨le_max_left _ _, max_le (by norm_num) (min_le_right _ _)⟩

/-- The lightweight swelling score is clipped into `[15, 85]`. -/
theorem detect_swelling_lw_mem (n2 e : ℚ) :
    15 ≤ detect_swelling_lw n2 e ∧ detect_swelling_lw n2 e ≤ 85 := by
  unfold detect_swelling_lw
  exact ⟨le_max_left _ _, max_le (by norm_num) (min_le_right _ _)⟩

/-- The lightweight closure score is clipped into `[20, 98]`. -/
theorem detect_closure_lw_mem (c1 c2 c3 v : ℚ) :
    20 ≤ detect_closure_lw c1 c2 c3 v ∧ detect_closure_lw c1 c2 c3 v ≤ 98 := by
  unfold detect_closure_lw
  exact ⟨le_max_left _ _, max_le (by norm_num) (min_le_right _ _)⟩

/-- The pure-python raw scores land in their clip intervals. -/
theorem pure_scores_mem (r1 r2 r3 : ℚ) (m : Metadata) :
    (10 ≤ (smart_medical_analysis r1 r2 r3 m).inflammation_score ∧
      (smart_medical_analysis r1 r2 r3 m).inflammation_score ≤ 95) ∧
    (10 ≤ (smart_medical_analysis r1 r2 r3 m).swelling_score ∧
      (smart_medical_analysis r1 r2 r3 m).swelling_score ≤ 85) ∧
    (30 ≤ (smart_medical_analysis r1 r2 r3 m).closure_score ∧
      (smart_medical_analysis r1 r2 r3 m).closure_score ≤ 98) := by
  unfold smart_medical_analysis
  exact ⟨clip_mem _ _ _ (by norm_num), clip_mem _ _ _ (by norm_num),
    clip_mem _ _ _ (by norm_num)⟩

/-- The rounded pure-python result scores land in their clip intervals. -/
theorem pure_result_mem (r1 r2 r3 : ℚ) (d : List Char) :
    (10 ≤ (pure_python_analysis r1 r2 r3 d).inflammation_score ∧
      (pure_python_analysis r1 r2 r3 d).inflammation_score ≤ 95) ∧
    (10 ≤ (pure_python_analysis r1 r2 r3 d).swelling_score ∧
      (pure_python_analysis r1 r2 r3 d).swelling_score ≤ 85) ∧
    (30 ≤ (pure_python_analysis r1 r2 r3 d).closure_score ∧
      (pure_python_analysis r1 r2 r3 d).closure_score ≤ 98) := by
  have hs := pure_scores_mem r1 r2 r3 (analyze_base64_metadata d)
  unfold pure_python_analysis pure_python_analysis_traced
  exact ⟨round1_mem 10 95 10 95 _ (by norm_num) (by norm_num) hs.1.1 hs.1.2,
    round1_mem 10 85 10 85 _ (by norm_num) (by norm_num) hs.2.1.1 hs.2.1.2,
    round1_mem 30 98 30 98 _ (by norm_num) (by norm_num) hs.2.2.1 hs.2.2.2⟩

/-- The lightweight analyzer result scores, fallback included, land in
their clip intervals. -/
theorem lw_result_mem (imgFeat : List ℕ → Option LWFeatures)
    (n1 n2 c1 c2 c3 : ℚ) (d : List Char) :
    (10 ≤ (lightweight_analyze_wound imgFeat n1 n2 c1 c2 c3 d).inflammation_score ∧
      (lightweight_analyze_wound imgFeat n1 n2 c1 c2 c3 d).inflammation_score ≤ 95) ∧
    (10 ≤ (lightweight_analyze_wound imgFeat n1 n2 c1 c2 c3 d).swelling_score ∧
      (lightweight_analyze_wound imgFeat n1 n2 c1 c2 c3 d).swelling_score ≤ 85) ∧
    (20 ≤ (lightweight_analyze_wound imgFeat n1 n2 c1 c2 c3 d).closure_score ∧
      (lightweight_analyze_wound imgFeat n1 n2 c1 c2 c3 d).closure_score ≤ 98) := by
  unfold lightweight_analyze_wound
  cases h1 : decodePipeline imgFeat d with
  | none => simp only [h1]; norm_num [lightweightFallback]
  | some f =>
    simp only [h1]
    unfold lightweight_success
    have hr := detect_redness_lw_mem n1 f.red_percentage
    have hsw := detect_swelling_lw_mem n2 f.edge_density
    have hcl := detect_closure_lw_mem c1 c2 c3 f.variance
    refine ⟨round1_mem 10 95 10 95 _ (by norm_num) (by norm_num) hr.1 hr.2, ?_,
      round1_mem 20 98 20 98 _ (by norm_num) (by norm_num) hcl.1 hcl.2⟩
    have hb := round1_mem 15 85 15 85 _ (by norm_num) (by norm_num) hsw.1 hsw.2
    exact ⟨by linarith [hb.1], hb.2⟩

/-- The no-CV raw scores land in their clip intervals. -/
theorem noCv_scores_mem (n1 n2 n3 : ℚ) (cs : ColorStats) :
    (15 ≤ (noCv_scores n1 n2 n3 cs).inflammation_score ∧
      (noCv_scores n1 n2 n3 cs).inflammation_score ≤ 95) ∧
    (10 ≤ (noCv_scores n1 n2 n3 cs).swelling_score ∧
      (noCv_scores n1 n2 n3 cs).swelling_score ≤ 85) ∧
    (30 ≤ (noCv_scores n1 n2 n3 cs).closure_score ∧
      (noCv_scores n1 n2 n3 cs).closure_score ≤ 98) := by
  unfold noCv_scores
  exact ⟨⟨le_min (le_max_left _ _) (by norm_num), min_le_right _ _⟩,
    ⟨le_min (le_max_left _ _) (by norm_num), min_le_right _ _⟩,
    ⟨le_min (le_max_left _ _) (by norm_num), min_le_right _ _⟩⟩

/-- The no-CV analyzer result scores, fallback included, land in their clip
intervals. -/
theorem noCv_result_mem (imgPixels : List ℕ → Option (List (ℕ × ℕ × ℕ)))
    (n1 n2 n3 : ℚ) (d : List Char) :
    (10 ≤ (simple_wound_analysis_no_cv imgPixels n1 n2 n3 d).inflammation_score ∧
      (simple_wound_analysis_no_cv imgPixels n1 n2 n3 d).inflammation_score ≤ 95) ∧
    (10 ≤ (simple_wound_analysis_no_cv imgPixels n1 n2 n3 d).swelling_score ∧
      (simple_wound_analysis_no_cv imgPixels n1 n2 n3 d).swelling_score ≤ 85) ∧
    (30 ≤ (simple_wound_analysis_no_cv imgPixels n1 n2 n3 d).closure_score ∧
      (simple_wound_analysis_no_cv imgPixels n1 n2 n3 d).closure_score ≤ 98) := by
  unfold simple_wound_analysis_no_cv simple_wound_analysis_no_cv_traced
  cases h1 : decodePipeline imgPixels d with
  | none => simp only [h1]; norm_num [noCvFallback]
  | some px =>
    simp only [h1]
    have hs := noCv_scores_mem n1 n2 n3 (analyze_colors_pil px)
    have hb := round1_mem 15 95 15 95 _ (by norm_num) (by norm_num) hs.1.1 hs.1.2
    exact ⟨⟨by linarith [hb.1], hb.2⟩,
      round1_mem 10 85 10 85 _ (by norm_num) (by norm_num) hs.2.1.1 hs.2.1.2,
      round1_mem 30 98 30 98 _ (by norm_num) (by norm_num) hs.2.2.1 hs.2.2.2⟩

/-- The full-model redness score is clipped into `[0, 100]` (not `[10, 95]`). -/
theorem detect_redness_model_mem (n af intf : ℚ) :
    0 ≤ detect_redness_model n af intf ∧ detect_redness_model n af intf ≤ 100 := by
  unfold detect_redness_model
  exact ⟨le_min (le_max_right _ _) (by norm_num), min_le_right _ _⟩

/-- CLAIM C2 counterexample.  The full model's decode-failure fallback (a
returned value of `WoundAnalysisModel.analyze_wound`, here on the comma-free
input `"abc"`) carries `inflammation_score = 0.0`, violating
`10 ≤ inflammation_score`. -/
theorem claim_c2_counterexample :
    (model_analyze_wound (fun _ => none) 0 (("abc").toList)).inflammation_score = 0
  ∧ ¬ (10 ≤ (model_analyze_wound (fun _ => none) 0 (("abc").toList)).inflammation_score) := by
  decide

/-- CLAIM C2 as amended.  In the pure-python, lightweight and no-CV
variants every returned score, fallbacks included, lies in its documented
clip interval (inflammation in `[10,95]`, swelling in `[10,85]`, closure in
`[30,98]` resp. `[20,98]`), so `10 ≤ inflammation_score` holds on every
call of those three; in the full `WoundAnalysisModel` the redness score is
only clipped to `[0,100]` and the fallback returns 0.0 scores, so
`10 ≤ inflammation_score` does not hold there. -/
theorem claim_c2_amended :
    (∀ (r1 r2 r3 : ℚ) (d : List Char),
      (10 ≤ (pure_python_analysis r1 r2 r3 d).inflammation_score ∧
        (pure_python_analysis r1 r2 r3 d).inflammation_score ≤ 95) ∧
      (10 ≤ (pure_python_analysis r1 r2 r3 d).swelling_score ∧
        (pure_python_analysis r1 r2 r3 d).swelling_score ≤ 85) ∧
      (30 ≤ (pure_python_analysis r1 r2 r3 d).closure_score ∧
        (pure_python_analysis r1 r2 r3 d).closure_score ≤ 98))
  ∧ (∀ (imgFeat : List ℕ → Option LWFeatures) (n1 n2 c1 c2 c3 : ℚ) (d : List Char),
      (10 ≤ (lightweight_analyze_wound imgFeat n1 n2 c1 c2 c3 d).inflammation_score ∧
        (lightweight_analyze_wound imgFeat n1 n2 c1 c2 c3 d).inflammation_score ≤ 95) ∧
      (10 ≤ (lightweight_analyze_wound imgFeat n1 n2 c1 c2 c3 d).swelling_score ∧
        (lightweight_analyze_wound imgFeat n1 n2 c1 c2 c3 d).swelling_score ≤ 85) ∧
      (20 ≤ (lightweight_analyze_wound imgFeat n1 n2 c1 c2 c3 d).closure_score ∧
        (lightweight_analyze_wound imgFeat n1 n2 c1 c2 c3 d).closure_score ≤ 98))
  ∧ (∀ (imgPixels : List ℕ → Option (List (ℕ × ℕ × ℕ))) (n1 n2 n3 : ℚ) (d : List Char),
      (10 ≤ (simple_wound_analysis_no_cv imgPixels n1 n2 n3 d).inflammation_score ∧
        (simple_wound_analysis_no_cv imgPixels n1 n2 n3 d).inflammation_score ≤ 95) ∧
      (10 ≤ (simple_wound_analysis_no_cv imgPixels n1 n2 n3 d).swelling_score ∧
        (simple_wound_analysis_no_cv imgPixels n1 n2 n3 d).swelling_score ≤ 85) ∧
      (30 ≤ (simple_wound_analysis_no_cv imgPixels n1 n2 n3 d).closure_score ∧
        (simple_wound_analysis_no_cv imgPixels n1 n2 n3 d).closure_score ≤ 98))
  ∧ (∀ (n af intf : ℚ),
      0 ≤ detect_redness_model n af intf ∧ detect_redness_model n af intf ≤ 100) :=
  ⟨pure_result_mem, lw_result_mem, noCv_result_mem, detect_redness_model_mem⟩

/-- Splitting at commas of a comma-free list returns the singleton of the
list itself. -/
theorem splitComma_eq_of_no_comma (d : List Char) (h : ',' ∉ d) : splitComma d = [d] := by
  induction d with
  | nil => rfl
  | cons c cs ih =>
    have hc : ¬ c = ',' := fun e => h (by rw [e]; exact List.mem_cons_self _ _)
    have hcs : ',' ∉ cs := fun m => h (List.mem_cons_of_mem _ m)
    simp only [splitComma, if_neg hc, ih hcs]

/-- The lightweight analyzer confidence, fallback included, lies in
`[0, 1]`. -/
theorem lw_conf_mem (imgFeat : List ℕ → Option LWFeatures)
    (n1 n2 c1 c2 c3 : ℚ) (d : List Char) :
    0 ≤ (lightweight_analyze_wound imgFeat n1 n2 c1 c2 c3 d).confidence ∧
    (lightweight_analyze_wound imgFeat n1 n2 c1 c2 c3 d).confidence ≤ 1 := by
  unfold lightweight_analyze_wound
  cases h1 : decodePipeline imgFeat d with
  | none => simp only [h1]; norm_num [lightweightFallback]
  | some f =>
    simp only [h1]
    unfold lightweight_success
    have hcl := detect_closure_lw_mem c1 c2 c3 f.variance
    have hlow : (4 : ℚ)/5 ≤
        min (7/10 + detect_closure_lw c1 c2 c3 f.variance / 200) (95/100) :=
      le_min (by linarith [hcl.1]) (by norm_num)
    have hhigh : min (7/10 + detect_closure_lw c1 c2 c3 f.variance / 200) (95/100) ≤
        95/100 := min_le_right _ _
    have hb := round2_frac_mem 80 95 _ (by push_cast; linarith) (by push_cast; linarith)
    have e80 : ((80 : ℤ) : ℚ) / 100 = 4/5 := by norm_num
    have e95 : ((95 : ℤ) : ℚ) / 100 = 19/20 := by norm_num
    rw [e80, e95] at hb
    exact ⟨by linarith [hb.1], by linarith [hb.2]⟩

/-- The no-CV analyzer confidence, fallback included, lies in `[0, 1]`. -/
theorem noCv_conf_mem (imgPixels : List ℕ → Option (List (ℕ × ℕ × ℕ)))
    (n1 n2 n3 : ℚ) (d : List Char) :
    0 ≤ (simple_wound_analysis_no_cv imgPixels n1 n2 n3 d).confidence ∧
    (simple_wound_analysis_no_cv imgPixels n1 n2 n3 d).confidence ≤ 1 := by
  unfold simple_wound_analysis_no_cv simple_wound_analysis_no_cv_traced
  cases h1 : decodePipeline imgPixels d with
  | none => simp only [h1]; norm_num [noCvFallback]
  | some px => simp only [h1]; norm_num

/-- The full-model confidence, fallback included, lies in `[0, 1]`. -/
theorem model_conf_mem (imgFeat : List ℕ → Option ModelFeatures)
    (n : ℚ) (d : List Char) :
    0 ≤ (model_analyze_wound imgFeat n d).confidence ∧
    (model_analyze_wound imgFeat n d).confidence ≤ 1 := by
  unfold model_analyze_wound
  cases h1 : decodePipeline imgFeat d with
  | none => simp only [h1]; norm_num [modelFallback]
  | some f =>
    simp only [h1, calculate_confidence_model]
    split_ifs <;> norm_num

/-- The pure-python confidence lies in `[0.7, 1.2]` on every call. -/
theorem pure_conf_mem (r1 r2 r3 : ℚ) (d : List Char) :
    7/10 ≤ (pure_python_analysis r1 r2 r3 d).confidence ∧
    (pure_python_analysis r1 r2 r3 d).confidence ≤ 6/5 := by
  unfold pure_python_analysis pure_python_analysis_traced
  have h0 : (0 : ℚ) ≤ min ((analyze_base64_metadata d).entropy : ℚ) 50 :=
    le_min (Nat.cast_nonneg _) (by norm_num)
  have h50 : min ((analyze_base64_metadata d).entropy : ℚ) 50 ≤ 50 := min_le_right _ _
  have hb := round2_frac_mem 70 120 (7/10 + min ((analyze_base64_metadata d).entropy : ℚ) 50 / 100)
    (by push_cast; linarith) (by push_cast; linarith)
  have e70 : ((70 : ℤ) : ℚ) / 100 = 7/10 := by norm_num
  have e120 : ((120 : ℤ) : ℚ) / 100 = 6/5 := by norm_num
  rw [e70, e120] at hb
  exact hb

/-- Closed form of the pure-python confidence: it is a function of the
payload entropy alone. -/
theorem pure_confidence_formula (r1 r2 r3 : ℚ) (d : List Char) :
    (pure_python_analysis r1 r2 r3 d).confidence =
    round2 (7/10 + min ((analyze_base64_metadata d).entropy : ℚ) 50 / 100) := by
  simp only [pure_python_analysis, pure_python_analysis_traced]

/-- CLAIM C3 counterexample.  On the spec's malformed base64 data-URI,
`pure_python_analysis` does not return its fixed fallback (it never decodes
the payload): it returns an ordinary metadata-based result labelled
`"metadata_analysis"`. -/
theorem claim_c3_counterexample :
    pure_python_analysis 0 0 0 malformedInput ≠ purePythonFallback
  ∧ (pure_python_analysis 0 0 0 malformedInput).processed_regions = "metadata_analysis" := by
  have h1 : (pure_python_analysis 0 0 0 malformedInput).processed_regions =
      "metadata_analysis" := rfl
  refine ⟨fun h => ?_, h1⟩
  have h2 := congrArg AnalysisResult.processed_regions h
  rw [h1] at h2
  exact absurd h2 (by decide)

/-- CLAIM C3 as amended.  No decode exception propagates: every analysis
function is total.  The lightweight `analyze_wound` and
`simple_wound_analysis_no_cv` return their fixed fallback whenever payload
extraction, base64 decoding, or image parsing fails; `pure_python_analysis`
never decodes the payload and returns an ordinary metadata-based result
(label `"metadata_analysis"`) on every input, malformed base64 included. -/
theorem claim_c3_amended :
    (∀ (imgFeat : List ℕ → Option LWFeatures) (n1 n2 c1 c2 c3 : ℚ) (d : List Char),
      (splitComma d).get? 1 = none →
        lightweight_analyze_wound imgFeat n1 n2 c1 c2 c3 d = lightweightFallback)
  ∧ (∀ (imgFeat : List ℕ → Option LWFeatures) (n1 n2 c1 c2 c3 : ℚ) (d p : List Char),
      (splitComma d).get? 1 = some p → pyB64Decode p = none →
        lightweight_analyze_wound imgFeat n1 n2 c1 c2 c3 d = lightweightFallback)
  ∧ (∀ (imgFeat : List ℕ → Option LWFeatures) (n1 n2 c1 c2 c3 : ℚ) (d p : List Char)
      (bs : List ℕ),
      (splitComma d).get? 1 = some p → pyB64Decode p = some bs → imgFeat bs = none →
        lightweight_analyze_wound imgFeat n1 n2 c1 c2 c3 d = lightweightFallback)
  ∧ (∀ (imgPixels : List ℕ → Option (List (ℕ × ℕ × ℕ))) (n1 n2 n3 : ℚ) (d : List Char),
      (splitComma d).get? 1 = none →
        simple_wound_analysis_no_cv imgPixels n1 n2 n3 d = noCvFallback)
  ∧ (∀ (imgPixels : List ℕ → Option (List (ℕ × ℕ × ℕ))) (n1 n2 n3 : ℚ) (d p : List Char),
      (splitComma d).get? 1 = some p → pyB64Decode p = none →
        simple_wound_analysis_no_cv imgPixels n1 n2 n3 d = noCvFallback)
  ∧ (∀ (imgPixels : List ℕ → Option (List (ℕ × ℕ × ℕ))) (n1 n2 n3 : ℚ) (d p : List Char)
      (bs : List ℕ),
      (splitComma d).get? 1 = some p → pyB64Decode p = some bs → imgPixels bs = none →
        simple_wound_analysis_no_cv imgPixels n1 n2 n3 d = noCvFallback)
  ∧ (∀ (r1 r2 r3 : ℚ) (d : List Char),
      (pure_python_analysis r1 r2 r3 d).processed_regions = "metadata_analysis") := by
  refine ⟨?_, ?_, ?_, ?_, ?_, ?_, fun _ _ _ _ => rfl⟩
  · intro i n1 n2 c1 c2 c3 d h
    unfold lightweight_analyze_wound
    simp only [decodePipeline_eq_none_of_split i d h]
  · intro i n1 n2 c1 c2 c3 d p h1 h2
    unfold lightweight_analyze_wound
    simp only [decodePipeline_eq_none_of_decode i d p h1 h2]
  · intro i n1 n2 c1 c2 c3 d p bs h1 h2 h3
    unfold lightweight_analyze_wound
    simp only [decodePipeline_eq_parse i d p bs h1 h2, h3]
  · intro i n1 n2 n3 d h
    unfold simple_wound_analysis_no_cv simple_wound_analysis_no_cv_traced
    simp only [decodePipeline_eq_none_of_split i d h]
  · intro i n1 n2 n3 d p h1 h2
    unfold simple_wound_analysis_no_cv simple_wound_analysis_no_cv_traced
    simp only [decodePipeline_eq_none_of_decode i d p h1 h2]
  · intro i n1 n2 n3 d p bs h1 h2 h3
    unfold simple_wound_analysis_no_cv simple_wound_analysis_no_cv_traced
    simp only [decodePipeline_eq_parse i d p bs h1 h2, h3]

/-- Witness for C3 as amended: the malformed data-URI of the spec fails
base64 decoding and the lightweight analyzer returns the fixed fallback. -/
theorem claim_c3_witness :
    lightweight_analyze_wound (fun _ => none) 0 0 0 0 0 malformedInput = lightweightFallback :=
  claim_c3_amended.2.1 (fun _ => none) 0 0 0 0 0 malformedInput
    (("%%%notbase64%%%").toList) (by decide) (by decide)

/-- CLAIM C4 counterexample.  On a comma-free payload whose first 1000
characters contain the 64 distinct base64 alphabet characters,
`pure_python_analysis` returns confidence `0.70 + min(64, 50)/100 = 1.2`,
outside `[0, 1]`. -/
theorem claim_c4_counterexample :
    (pure_python_analysis 0 0 0 alphabetInput).confidence = 6/5
  ∧ ¬ ((pure_python_analysis 0 0 0 alphabetInput).confidence ≤ 1) := by
  have h1 : (pure_python_analysis 0 0 0 alphabetInput).confidence =
      round2 (7/10 + (50 : ℚ) / 100) := rfl
  have h2 : round2 (7/10 + (50 : ℚ) / 100) = 6/5 := by
    norm_num [round2, roundTo, round_eq]
  rw [h1, h2]
  norm_num

/-- CLAIM C4 as amended.  The confidence lies in `[0, 1]` for the
lightweight, no-CV and full-model variants, fallbacks included; for
`pure_python_analysis` the confidence is
`round(0.70 + min(entropy, 50)/100, 2)` and lies in `[0.7, 1.2]`, exceeding
1 whenever the payload shows more than 30 distinct characters. -/
theorem claim_c4_amended :
    (∀ (imgFeat : List ℕ → Option LWFeatures) (n1 n2 c1 c2 c3 : ℚ) (d : List Char),
      0 ≤ (lightweight_analyze_wound imgFeat n1 n2 c1 c2 c3 d).confidence ∧
      (lightweight_analyze_wound imgFeat n1 n2 c1 c2 c3 d).confidence ≤ 1)
  ∧ (∀ (imgPixels : List ℕ → Option (List (ℕ × ℕ × ℕ))) (n1 n2 n3 : ℚ) (d : List Char),
      0 ≤ (simple_wound_analysis_no_cv imgPixels n1 n2 n3 d).confidence ∧
      (simple_wound_analysis_no_cv imgPixels n1 n2 n3 d).confidence ≤ 1)
  ∧ (∀ (imgFeat : List ℕ → Option ModelFeatures) (n : ℚ) (d : List Char),
      0 ≤ (model_analyze_wound imgFeat n d).confidence ∧
      (model_analyze_wound imgFeat n d).confidence ≤ 1)
  ∧ (∀ (r1 r2 r3 : ℚ) (d : List Char),
      7/10 ≤ (pure_python_analysis r1 r2 r3 d).confidence ∧
      (pure_python_analysis r1 r2 r3 d).confidence ≤ 6/5) :=
  ⟨lw_conf_mem, noCv_conf_mem, model_conf_mem, pure_conf_mem⟩

/-- CLAIM C6 counterexample.  Two lightweight runs on the identical input
string with the identical image signals, differing only in the injected
closure noise draw (20 vs 40), return different confidences (0.8 vs 0.9). -/
theorem lwConfAt20 : round2 (min ((7 : ℚ)/10 + 20 / 200) (95/100)) = 4/5 := by
  norm_num [round2, roundTo, round_eq, min_def]

theorem lwConfAt40 : round2 (min ((7 : ℚ)/10 + 40 / 200) (95/100)) = 9/10 := by
  norm_num [round2, roundTo, round_eq, min_def]

theorem claim_c6_counterexample :
    (lightweight_analyze_wound (fun _ => some ⟨0, 0, 1500⟩) 0 0 0 20 0
        (("x,QUJD").toList)).confidence = 4/5
  ∧ (lightweight_analyze_wound (fun _ => some ⟨0, 0, 1500⟩) 0 0 0 40 0
        (("x,QUJD").toList)).confidence = 9/10
  ∧ (lightweight_analyze_wound (fun _ => some ⟨0, 0, 1500⟩) 0 0 0 20 0
        (("x,QUJD").toList)).confidence ≠
      (lightweight_analyze_wound (fun _ => some ⟨0, 0, 1500⟩) 0 0 0 40 0
        (("x,QUJD").toList)).confidence := by
  have h20 : (lightweight_analyze_wound (fun _ => some ⟨0, 0, 1500⟩) 0 0 0 20 0
      (("x,QUJD").toList)).confidence = round2 (min ((7 : ℚ)/10 + 20 / 200) (95/100)) := rfl
  have h40 : (lightweight_analyze_wound (fun _ => some ⟨0, 0, 1500⟩) 0 0 0 40 0
      (("x,QUJD").toList)).confidence = round2 (min ((7 : ℚ)/10 + 40 / 200) (95/100)) := rfl
  refine ⟨h20.trans lwConfAt20, h40.trans lwConfAt40, ?_⟩
  rw [h20.trans lwConfAt20, h40.trans lwConfAt40]
  norm_num

/-- CLAIM C6 as amended.  The confidence is independent of the injected
noise in the pure-python variant (a function of the payload entropy), the
no-CV variant (constant 0.75 resp. the fallback value) and the full model
(a function of the wound mask); in the lightweight variant the confidence
`min(0.7 + closure_score/200, 0.95)` depends on the noisy closure score, so
runs differing only in noise can return different confidences. -/
theorem claim_c6_amended :
    (∀ (d : List Char) (r1 r2 r3 s1 s2 s3 : ℚ),
      (pure_python_analysis r1 r2 r3 d).confidence = (pure_python_analysis s1 s2 s3 d).confidence)
  ∧ (∀ (imgPixels : List ℕ → Option (List (ℕ × ℕ × ℕ))) (d : List Char)
      (n1 n2 n3 m1 m2 m3 : ℚ),
      (simple_wound_analysis_no_cv imgPixels n1 n2 n3 d).confidence =
        (simple_wound_analysis_no_cv imgPixels m1 m2 m3 d).confidence)
  ∧ (∀ (imgFeat : List ℕ → Option ModelFeatures) (d : List Char) (n m : ℚ),
      (model_analyze_wound imgFeat n d).confidence = (model_analyze_wound imgFeat m d).confidence)
  ∧ ((lightweight_success 0 0 0 20 0 ⟨0, 0, 1500⟩).confidence ≠
      (lightweight_success 0 0 0 40 0 ⟨0, 0, 1500⟩).confidence) := by
  have hdep : (lightweight_success 0 0 0 20 0 ⟨0, 0, 1500⟩).confidence ≠
      (lightweight_success 0 0 0 40 0 ⟨0, 0, 1500⟩).confidence := by
    have a20 : (lightweight_success 0 0 0 20 0 ⟨0, 0, 1500⟩).confidence =
        round2 (min ((7 : ℚ)/10 + 20 / 200) (95/100)) := rfl
    have a40 : (lightweight_success 0 0 0 40 0 ⟨0, 0, 1500⟩).confidence =
        round2 (min ((7 : ℚ)/10 + 40 / 200) (95/100)) := rfl
    rw [a20.trans lwConfAt20, a40.trans lwConfAt40]
    norm_num
  refine ⟨fun d r1 r2 r3 s1 s2 s3 =>
    (pure_confidence_formula r1 r2 r3 d).trans (pure_confidence_formula s1 s2 s3 d).symm,
    ?_, ?_, hdep⟩
  · intro ip d n1 n2 n3 m1 m2 m3
    unfold simple_wound_analysis_no_cv simple_wound_analysis_no_cv_traced
    cases h1 : decodePipeline ip d with
    | none => simp only [h1]
    | some px => simp only [h1]
  · intro i d n m
    unfold model_analyze_wound
    cases h1 : decodePipeline i d with
    | none => simp only [h1]
    | some f => simp only [h1]

/-- CLAIM C7 counterexample.  The no-CV closure score is not the spec's
transform-clip-noise-clip pipeline: at red percentage 50 and noise draw 10
the code (no pre-noise clip) yields 30 while the four-step pipeline yields
40. -/
theorem claim_c7_counterexample :
    (noCv_scores 0 0 10 ⟨50, 100, 0⟩).closure_score = 30
  ∧ specFourStepClosureNoCv 50 10 = 40
  ∧ (noCv_scores 0 0 10 ⟨50, 100, 0⟩).closure_score ≠ specFourStepClosureNoCv 50 10 := by
  have h1 : (noCv_scores 0 0 10 ⟨50, 100, 0⟩).closure_score = 30 := by
    show min (max 30 ((90 - (50 : ℚ) * 2) + 10)) 98 = 30
    norm_num [min_def, max_def]
  have h2 : specFourStepClosureNoCv 50 10 = 40 := by
    unfold specFourStepClosureNoCv clip
    norm_num [min_def, max_def]
  refine ⟨h1, h2, ?_⟩
  rw [h1, h2]
  norm_num

/-- CLAIM C7 as amended.  In the lightweight and no-CV variants every score
applies the final clip to its documented range after the noise is added, so
those six scores stay in range for any noise draw; but the pre-noise clip
to the documented range is skipped: the no-CV closure score adds its noise
directly to the unclipped base `90 - 2 * red_percentage` and therefore
differs from the four-step transform-clip-noise-clip pipeline. -/
theorem claim_c7_amended :
    (∀ (n1 n2 n3 : ℚ) (cs : ColorStats),
      (15 ≤ (noCv_scores n1 n2 n3 cs).inflammation_score ∧
        (noCv_scores n1 n2 n3 cs).inflammation_score ≤ 95) ∧
      (10 ≤ (noCv_scores n1 n2 n3 cs).swelling_score ∧
        (noCv_scores n1 n2 n3 cs).swelling_score ≤ 85) ∧
      (30 ≤ (noCv_scores n1 n2 n3 cs).closure_score ∧
        (noCv_scores n1 n2 n3 cs).closure_score ≤ 98))
  ∧ (∀ (n1 r : ℚ), 10 ≤ detect_redness_lw n1 r ∧ detect_redness_lw n1 r ≤ 95)
  ∧ (∀ (n2 e : ℚ), 15 ≤ detect_swelling_lw n2 e ∧ detect_swelling_lw n2 e ≤ 85)
  ∧ (∀ (c1 c2 c3 v : ℚ),
      20 ≤ detect_closure_lw c1 c2 c3 v ∧ detect_closure_lw c1 c2 c3 v ≤ 98)
  ∧ (noCv_scores 0 0 10 ⟨50, 100, 0⟩).closure_score ≠ specFourStepClosureNoCv 50 10 := by
  refine ⟨noCv_scores_mem, detect_redness_lw_mem, detect_swelling_lw_mem,
    detect_closure_lw_mem, ?_⟩
  have h1 : (noCv_scores 0 0 10 ⟨50, 100, 0⟩).closure_score = 30 := by
    show min (max 30 ((90 - (50 : ℚ) * 2) + 10)) 98 = 30
    norm_num [min_def, max_def]
  have h2 : specFourStepClosureNoCv 50 10 = 40 := by
    unfold specFourStepClosureNoCv clip
    norm_num [min_def, max_def]
  rw [h1, h2]
  norm_num

/-- CLAIM C8 counterexample.  A bare base64 payload without a comma is
valid base64 (here decoding to the bytes of `"ABC"`), yet the lightweight
analyzer rejects it into the fixed fallback (its `split(',')[1]` raises
`IndexError`) even when the image pipeline would succeed. -/
theorem claim_c8_counterexample :
    pyB64Decode barePayload = some [65, 66, 67]
  ∧ lightweight_analyze_wound (fun _ => some ⟨0, 0, 0⟩) 0 0 0 0 0 barePayload =
      lightweightFallback :=
  ⟨by decide, rfl⟩

/-- CLAIM C8 as amended.  Only `analyze_base64_metadata` falls back to the
whole string when no comma is present (and it never base64-decodes the
payload); the image-decoding variants (lightweight, no-CV, full model) take
`split(',')[1]` unconditionally, so a comma-free bare payload raises
`IndexError` and is handled as a decode failure returning the fixed
fallback, not decoded. -/
theorem claim_c8_amended :
    (∀ d : List Char, ',' ∉ d → pureDataPart d = d)
  ∧ (∀ d : List Char, ',' ∈ d → pureDataPart d = (splitComma d).getD 1 [])
  ∧ (∀ d : List Char, ',' ∉ d → (splitComma d).get? 1 = none)
  ∧ (∀ (imgFeat : List ℕ → Option LWFeatures) (n1 n2 c1 c2 c3 : ℚ) (d : List Char),
      ',' ∉ d → lightweight_analyze_wound imgFeat n1 n2 c1 c2 c3 d = lightweightFallback)
  ∧ (∀ (imgPixels : List ℕ → Option (List (ℕ × ℕ × ℕ))) (n1 n2 n3 : ℚ) (d : List Char),
      ',' ∉ d → simple_wound_analysis_no_cv imgPixels n1 n2 n3 d = noCvFallback)
  ∧ (∀ (imgFeat : List ℕ → Option ModelFeatures) (n : ℚ) (d : List Char),
      ',' ∉ d → model_analyze_wound imgFeat n d = modelFallback) := by
  have hget : ∀ d : List Char, ',' ∉ d → (splitComma d).get? 1 = none := by
    intro d h
    rw [splitComma_eq_of_no_comma d h]
    rfl
  refine ⟨?_, ?_, hget, ?_, ?_, ?_⟩
  · intro d h
    unfold pureDataPart
    rw [if_neg h]
  · intro d h
    unfold pureDataPart
    rw [if_pos h]
  · intro i n1 n2 c1 c2 c3 d h
    unfold lightweight_analyze_wound
    simp only [decodePipeline_eq_none_of_split i d (hget d h)]
  · intro i n1 n2 n3 d h
    unfold simple_wound_analysis_no_cv simple_wound_analysis_no_cv_traced
    simp only [decodePipeline_eq_none_of_split i d (hget d h)]
  · intro i n d h
    unfold model_analyze_wound
    simp only [decodePipeline_eq_none_of_split i d (hget d h)]

/-- Witness for C8 as amended: the comma-free bare payload `"QUJD"` sends
the lightweight analyzer to the fixed fallback. -/
theorem claim_c8_witness :
    lightweight_analyze_wound (fun _ => none) 0 0 0 0 0 barePayload = lightweightFallback :=
  claim_c8_amended.2.2.2.1 (fun _ => none) 0 0 0 0 0 barePayload (by decide)

/-- CLAIM C9.  Feature extraction is deterministic and free of injected
randomness: the feature set computed inside a full run (metadata for
`pure_python_analysis`, colour statistics for the no-CV analyzer) is
identical across runs that differ only in the injected noise draws, and the
extractors `analyze_base64_metadata` and `analyze_colors_pil` are pure
functions of their input, so two calls on identical input agree. -/
theorem claim_c9 :
    (∀ (d : List Char) (r1 r2 r3 s1 s2 s3 : ℚ),
      (pure_python_analysis_traced r1 r2 r3 d).1 = (pure_python_analysis_traced s1 s2 s3 d).1)
  ∧ (∀ (imgPixels : List ℕ → Option (List (ℕ × ℕ × ℕ))) (d : List Char)
      (n1 n2 n3 m1 m2 m3 : ℚ),
      (simple_wound_analysis_no_cv_traced imgPixels n1 n2 n3 d).1 =
        (simple_wound_analysis_no_cv_traced imgPixels m1 m2 m3 d).1)
  ∧ (∀ d : List Char, analyze_base64_metadata d = analyze_base64_metadata d)
  ∧ (∀ px : List (ℕ × ℕ × ℕ), analyze_colors_pil px = analyze_colors_pil px) := by
  refine ⟨fun d r1 r2 r3 s1 s2 s3 => rfl, ?_, fun d => rfl, fun px => rfl⟩
  intro ip d n1 n2 n3 m1 m2 m3
  unfold simple_wound_analysis_no_cv_traced
  cases h1 : decodePipeline ip d with
  | none => simp only [h1]
  | some px => simp only [h1]

/-- CLAIM C1.  For every triple of scores the classifier returns
`"critical"` iff `inflammation > 70 ∨ swelling > 60`, `"warning"` iff not
critical and `inflammation > 50 ∨ swelling > 40 ∨ closure < 50`, and
`"good"` otherwise (shown for `_evaluate_status` of `lightweight_model.py`
and the inline classifier of `pure_python_analysis`); in particular with
inflammation exactly 70 and swelling at most 60 the status is not
`"critical"`. -/
theorem claim_c1 (i s c : ℚ) :
    ((evaluate_status_lw i s c).1 = "critical" ↔ (i > 70 ∨ s > 60))
  ∧ ((evaluate_status_lw i s c).1 = "warning" ↔
      (¬(i > 70 ∨ s > 60) ∧ (i > 50 ∨ s > 40 ∨ c < 50)))
  ∧ ((evaluate_status_lw i s c).1 = "good" ↔
      (¬(i > 70 ∨ s > 60) ∧ ¬(i > 50 ∨ s > 40 ∨ c < 50)))
  ∧ ((pure_status i s c).1 = "critical" ↔ (i > 70 ∨ s > 60))
  ∧ ((pure_status i s c).1 = "warning" ↔
      (¬(i > 70 ∨ s > 60) ∧ (i > 50 ∨ s > 40 ∨ c < 50)))
  ∧ ((pure_status i s c).1 = "good" ↔
      (¬(i > 70 ∨ s > 60) ∧ ¬(i > 50 ∨ s > 40 ∨ c < 50)))
  ∧ (i = 70 → s ≤ 60 → (evaluate_status_lw i s c).1 ≠ "critical") := by
  have hcw : ¬ ("critical" : String) = "warning" := by decide
  have hcg : ¬ ("critical" : String) = "good" := by decide
  have hwc : ¬ ("warning" : String) = "critical" := by decide
  have hwg : ¬ ("warning" : String) = "good" := by decide
  have hgc : ¬ ("good" : String) = "critical" := by decide
  have hgw : ¬ ("good" : String) = "warning" := by decide
  unfold evaluate_status_lw pure_status
  split_ifs with h1 h2
  · refine ⟨by simp [h1], by simp [hcw, h1], by simp [hcg, h1],
      by simp [h1], by simp [hcw, h1], by simp [hcg, h1], ?_⟩
    intro hi hs hcon
    rcases h1 with h | h
    · rw [hi] at h; exact absurd h (by norm_num)
    · exact absurd h (not_lt.mpr hs)
  · exact ⟨by simp [hwc, h1], by simp [h1, h2], by simp [hwg, h1, h2],
      by simp [hwc, h1], by simp [h1, h2], by simp [hwg, h1, h2],
      fun _ _ => hwc⟩
  · exact ⟨by simp [hgc, h1], by simp [hgw, h1, h2], by simp [h1, h2],
      by simp [hgc, h1], by simp [hgw, h1, h2], by simp [h1, h2],
      fun _ _ => hgc⟩

/-- Witness for C1: at inflammation exactly 70, swelling 60, the
lightweight classifier does not return `"critical"`. -/
theorem claim_c1_witness : (evaluate_status_lw 70 60 0).1 ≠ "critical" :=
  (claim_c1 70 60 0).2.2.2.2.2.2 rfl (by norm_num)

/-- CLAIM C10.  `_calculate_confidence` returns exactly one of 0.3, 0.6,
0.9: 0.3 when the wound area is below 1% of the mask size, 0.6 when it is
below 5% (and not below 1%), and 0.9 otherwise. -/
theorem claim_c10 (wound_mask : List ℕ) :
    (calculate_confidence_model wound_mask = 3/10 ∨
     calculate_confidence_model wound_mask = 3/5 ∨
     calculate_confidence_model wound_mask = 9/10)
  ∧ (calculate_confidence_model wound_mask = 3/10 ↔
      (((wound_mask.filter (fun x => decide (0 < x))).length : ℚ) <
        (wound_mask.length : ℚ) * (1/100)))
  ∧ (calculate_confidence_model wound_mask = 3/5 ↔
      (¬ (((wound_mask.filter (fun x => decide (0 < x))).length : ℚ) <
          (wound_mask.length : ℚ) * (1/100)) ∧
       ((wound_mask.filter (fun x => decide (0 < x))).length : ℚ) <
        (wound_mask.length : ℚ) * (5/100)))
  ∧ (calculate_confidence_model wound_mask = 9/10 ↔
      (¬ (((wound_mask.filter (fun x => decide (0 < x))).length : ℚ) <
          (wound_mask.length : ℚ) * (1/100)) ∧
       ¬ (((wound_mask.filter (fun x => decide (0 < x))).length : ℚ) <
          (wound_mask.length : ℚ) * (5/100)))) := by
  simp only [calculate_confidence_model]
  split_ifs with h1 h2
  · refine ⟨Or.inl rfl, ⟨fun _ => h1, fun _ => rfl⟩, ?_, ?_⟩
    · constructor
      · intro h; exact absurd h (by norm_num)
      · intro h; exact absurd h1 h.1
    · constructor
      · intro h; exact absurd h (by norm_num)
      · intro h; exact absurd h1 h.1
  · refine ⟨Or.inr (Or.inl rfl), ?_, ⟨fun _ => ⟨h1, h2⟩, fun _ => rfl⟩, ?_⟩
    · constructor
      · intro h; exact absurd h (by norm_num)
      · intro h; exact absurd h h1
    · constructor
      · intro h; exact absurd h (by norm_num)
      · intro h; exact absurd h2 h.2
  · refine ⟨Or.inr (Or.inr rfl), ?_, ?_, ⟨fun _ => ⟨h1, h2⟩, fun _ => rfl⟩⟩
    · constructor
      · intro h; exact absurd h (by norm_num)
      · intro h; exact absurd h h1
    · constructor
      · intro h; exact absurd h (by norm_num)
      · intro h; exact absurd h.2 h2

/-- CLAIM C5 (code bug).  On an empty `image` field no 400 client error
reaches the caller: the `pure_python_api.py` handler returns the
success-shaped `error_fallback` body (its own `HTTPException(400)` is caught
by the blanket `except Exception`), and the `lightweight_api.py` and
`api_server.py` handlers re-raise it as a 500 server error. -/
theorem claim_c5_thm :
    pure_api_analyze_wound 0 0 0 [] = EndpointOutcome.success errorFallback
  ∧ (∀ (imgFeat : List ℕ → Option LWFeatures) (n1 n2 c1 c2 c3 : ℚ),
      lightweight_api_analyze_wound imgFeat n1 n2 c1 c2 c3 [] = EndpointOutcome.httpError 500)
  ∧ (∀ (imgPixels : List ℕ → Option (List (ℕ × ℕ × ℕ))) (n1 n2 n3 : ℚ),
      noCv_api_analyze_wound imgPixels n1 n2 n3 [] = EndpointOutcome.httpError 500)
  ∧ errorFallback.overall_status = "good" := by
  refine ⟨by simp [pure_api_analyze_wound], fun _ _ _ _ _ _ => ?_, fun _ _ _ _ => ?_, rfl⟩
  · simp [lightweight_api_analyze_wound]
  · simp [noCv_api_analyze_wound]
